import Mathlib

/-!
Shallow embedding of `src/get_public_ip.py` (module `get_public_ip`).

The script resolves the host's public IP address by opening a raw TCP
connection to `icanhazip.com:80`, sending a fixed HTTP/1.1 GET, reading up
to 2048 bytes, decoding the response as UTF-8, splitting it into lines and
taking the last line. The CLI entry point (`main`) tries IPv6 then IPv4 in
auto mode and prints either the resolved address or a failure message.

Modelling decisions:
  * Network behaviour is an explicit environment `ConnEnv` per connection
    attempt: whether `connect` succeeds, whether `send`/`recv` raise
    `OSError`, and the raw bytes the peer answers with.
  * Python exceptions are `Except PyExc`; the exceptions this code can
    actually raise are `OSError` (socket layer), `UnicodeDecodeError`
    (`str(message, encoding='utf-8')` on invalid UTF-8) and `IndexError`
    (`splitlines()[-1]` on an empty response).
  * `str(bytes, encoding='utf-8')` is embedded as a strict UTF-8 decoder
    (`utf8Decode`) and `str.splitlines` as `pySplitlines`, following
    CPython's documented semantics (line boundaries LF, VT, FF, CR, CRLF,
    FS, GS, RS, NEL, LS, PS; no trailing empty line for a final newline).
  * Socket operations are logged in a trace of `NetEvent`s so that claims
    about what is sent, how much is received and whether the socket is
    closed are statable.
  * The `@contextmanager` generator `open_tcp_connection` does not wrap its
    `yield` in `try/finally`: when the `with`-body raises, the exception is
    thrown into the generator at the `yield` and the `if sock: sock.close()`
    after it never runs. `withOpenTcpConnection` embeds exactly that
    control flow.
  * `sys.exit(main(...))` with `main` returning `None` exits with status 0;
    an uncaught Python exception makes the interpreter exit with status 1.
-/

deriving instance DecidableEq for Except

/-- The Python exceptions reachable in this script. -/
inductive PyExc
  | osError
  | unicodeDecodeError
  | indexError
deriving DecidableEq

/-- Socket address families used by `open_tcp_connection`. -/
inductive Family
  | afInet
  | afInet6
deriving DecidableEq

/-- Lines 25-28: `socket.socket(family=AF_INET)` when `version == 4`,
`socket.socket(family=AF_INET6)` otherwise. -/
def socketFamily (version : Nat) : Family :=
  if version = 4 then Family.afInet else Family.afInet6

/-- Observable socket operations, recorded as a trace. -/
inductive NetEvent
  | socketCreate (fam : Family)
  | connect (host : String) (port : Nat)
  | send (data : List Nat)
  | recv (bufsize : Nat)
  | close
deriving DecidableEq

/-- The network environment of one connection attempt: does `connect`
succeed, do `send` and `recv` succeed, and what bytes does the peer send. -/
structure ConnEnv where
  connectOk : Bool
  sendOk : Bool
  recvOk : Bool
  responseBytes : List Nat
deriving DecidableEq

/-- Is a byte a UTF-8 continuation byte (0x80-0xBF)? -/
def isCont (b : Nat) : Bool :=
  128 ≤ b && b ≤ 191

/-- Strict UTF-8 decoding of a byte list into characters, embedding
CPython's `str(message, encoding='utf-8')`: rejects truncated sequences,
stray continuation bytes, overlong encodings, surrogates and code points
above U+10FFFF; `none` models `UnicodeDecodeError`. -/
def utf8Decode : List Nat → Option (List Char)
  | [] => some []
  | b0 :: rest =>
    if b0 ≤ 127 then
      (utf8Decode rest).map (fun cs => Char.ofNat b0 :: cs)
    else if 194 ≤ b0 && b0 ≤ 223 then
      match rest with
      | b1 :: rest2 =>
        if isCont b1 then
          (utf8Decode rest2).map
            (fun cs => Char.ofNat ((b0 - 192) * 64 + (b1 - 128)) :: cs)
        else none
      | [] => none
    else if 224 ≤ b0 && b0 ≤ 239 then
      match rest with
      | b1 :: b2 :: rest2 =>
        let lo1 : Nat := if b0 = 224 then 160 else 128
        let hi1 : Nat := if b0 = 237 then 159 else 191
        if (lo1 ≤ b1 && b1 ≤ hi1) && isCont b2 then
          (utf8Decode rest2).map
            (fun cs =>
              Char.ofNat ((b0 - 224) * 4096 + (b1 - 128) * 64 + (b2 - 128)) :: cs)
        else none
      | _ => none
    else if 240 ≤ b0 && b0 ≤ 244 then
      match rest with
      | b1 :: b2 :: b3 :: rest2 =>
        let lo1 : Nat := if b0 = 240 then 144 else 128
        let hi1 : Nat := if b0 = 244 then 143 else 191
        if ((lo1 ≤ b1 && b1 ≤ hi1) && isCont b2) && isCont b3 then
          (utf8Decode rest2).map
            (fun cs =>
              Char.ofNat
                ((b0 - 240) * 262144 + (b1 - 128) * 4096 + (b2 - 128) * 64 +
                  (b3 - 128)) :: cs)
        else none
      | _ => none
    else none

/-- The line-boundary characters of CPython's `str.splitlines`
(LF, VT, FF, CR, FS, GS, RS, NEL, LS, PS; CRLF is handled in
`pySplitlinesGo`). -/
def isLineBreak (c : Char) : Bool :=
  c.toNat == 10 || c.toNat == 11 || c.toNat == 12 || c.toNat == 13 ||
    c.toNat == 28 || c.toNat == 29 || c.toNat == 30 || c.toNat == 133 ||
    c.toNat == 8232 || c.toNat == 8233

/-- Worker for `pySplitlines`; `cur` is the current line, reversed. -/
def pySplitlinesGo (cur : List Char) : List Char → List (List Char)
  | [] => if cur.isEmpty then [] else [cur.reverse]
  | c :: cs =>
    if c.toNat == 13 then
      match cs with
      | d :: cs2 =>
        if d.toNat == 10 then cur.reverse :: pySplitlinesGo [] cs2
        else cur.reverse :: pySplitlinesGo [] (d :: cs2)
      | [] => [cur.reverse]
    else if isLineBreak c then cur.reverse :: pySplitlinesGo [] cs
    else pySplitlinesGo (c :: cur) cs

/-- CPython's `str.splitlines()`: split at line boundaries, treating CRLF
as a single boundary, with no trailing empty line for a final boundary. -/
def pySplitlines (text : List Char) : List (List Char) :=
  pySplitlinesGo [] text

/-- The bytes of an ASCII string (for ASCII text, UTF-8 bytes and code
points coincide). -/
def strBytes (s : String) : List Nat :=
  s.data.map Char.toNat

/-- Line 52: the exact request bytes
`b'GET / HTTP/1.1\r\nHost: icanhazip.com\r\n\r\n'`. -/
def GET_REQUEST : List Nat :=
  strBytes "GET / HTTP/1.1\r\nHost: icanhazip.com\r\n\r\n"

/-- Lines 14-38: the `with open_tcp_connection(host, port, version) as sock:`
block. A socket of family `socketFamily version` is created and `connect`
is attempted; on `OSError` the name `sock` is rebound to `False` (the
socket object is dropped without an explicit `close`). The body receives
the truthiness of `sock`. Because the generator's `yield` is not wrapped
in `try/finally`, the `if sock: sock.close()` after the `yield` runs only
when the body finishes normally: an exception raised by the body is thrown
into the generator at the `yield` point and propagates, skipping the
close. -/
def withOpenTcpConnection {α : Type} (host : String) (port : Nat)
    (version : Nat) (env : ConnEnv)
    (body : Bool → Except PyExc α × List NetEvent) :
    Except PyExc α × List NetEvent :=
  let pre : List NetEvent :=
    [NetEvent.socketCreate (socketFamily version), NetEvent.connect host port]
  let sock := env.connectOk
  let r := (body sock).1
  let bodyTr := (body sock).2
  (r,
    pre ++ bodyTr ++
      (match r with
        | Except.ok _ => if sock then [NetEvent.close] else []
        | Except.error _ => []))

/-- Lines 55-56: decode the received bytes as UTF-8, split into lines and
take element `[-1]`; decoding failure raises `UnicodeDecodeError`, and
`[-1]` on the empty list raises `IndexError`. -/
def processResponse (message : List Nat) : Except PyExc (Option (List Char)) :=
  match utf8Decode message with
  | none => Except.error PyExc.unicodeDecodeError
  | some text =>
    match (pySplitlines text).getLast? with
    | none => Except.error PyExc.indexError
    | some line => Except.ok (some line)

/-- Lines 40-56: `get_public_ip(version)`. Returns the Python result
(`None`, a string, or a raised exception) together with the socket trace.
Inside the `with` block: on a falsy `sock` return `None`; otherwise send
`GET_REQUEST` and `recv(2048)` (each may raise `OSError`); the response is
truncated to 2048 bytes. The decode/splitlines step happens after the
`with` block (so its exceptions occur with the socket already closed). -/
def get_public_ip (version : Nat) (env : ConnEnv) :
    Except PyExc (Option (List Char)) × List NetEvent :=
  let p := withOpenTcpConnection "icanhazip.com" 80 version env (fun sock =>
    if !sock then (Except.ok none, [])
    else if !env.sendOk then
      (Except.error PyExc.osError, [NetEvent.send GET_REQUEST])
    else if !env.recvOk then
      (Except.error PyExc.osError,
        [NetEvent.send GET_REQUEST, NetEvent.recv 2048])
    else
      (Except.ok (some (env.responseBytes.take 2048)),
        [NetEvent.send GET_REQUEST, NetEvent.recv 2048]))
  ((match p.1 with
    | Except.error e => Except.error e
    | Except.ok none => Except.ok none
    | Except.ok (some message) => processResponse message), p.2)

/-- Python truthiness of the value returned by `get_public_ip`: `None` and
the empty string are falsy, any non-empty string is truthy. -/
def pyTruthy : Option (List Char) → Bool
  | none => false
  | some s => !s.isEmpty

/-- Did the embedded computation raise an exception? -/
def raised {α : Type} : Except PyExc α → Bool
  | Except.error _ => true
  | Except.ok _ => false

/-- Did `get_public_ip` return (without raising) a truthy string? -/
def resolveTruthy (r : Except PyExc (Option (List Char))) : Bool :=
  match r with
  | Except.ok a => pyTruthy a
  | Except.error _ => false

/-- Did `get_public_ip` return (without raising) a falsy value, i.e.
`None` or the empty string? -/
def resolveFalsy (r : Except PyExc (Option (List Char))) : Bool :=
  match r with
  | Except.ok a => !pyTruthy a
  | Except.error _ => false

/-- The string carried by a successful `get_public_ip` result. -/
def resolveValue (r : Except PyExc (Option (List Char))) : List Char :=
  match r with
  | Except.ok a => a.getD []
  | Except.error _ => []

/-- The configuration produced by argument parsing (lines 64-80):
`ip_version` is 0 for auto (the default), 4 or 6; `failure_message`
defaults to `"service unreachable"`. -/
structure Config where
  ipVersion : Nat
  failureMessage : List Char
deriving DecidableEq

/-- Line 79: the default of `--failure_message`. -/
def defaultFailureMessage : List Char :=
  "service unreachable".data

/-- Lines 82-92 of `main`, after argument parsing: the computed `address`
(or the exception that aborted `main`), together with the list of protocol
versions on which `get_public_ip` was called, in order. In auto mode the
`for version in [6, 4]` loop breaks on the first truthy address and the
`else` clause substitutes the failure message; in a specific-version mode
`get_public_ip(version) or failure_message` is printed. The environment
`env` gives the network behaviour of the attempt on each version. -/
def mainRun (cfg : Config) (env : Nat → ConnEnv) :
    Except PyExc (List Char) × List Nat :=
  if cfg.ipVersion = 0 then
    match (get_public_ip 6 (env 6)).1 with
    | Except.error e => (Except.error e, [6])
    | Except.ok a6 =>
      if pyTruthy a6 then (Except.ok (a6.getD []), [6])
      else
        match (get_public_ip 4 (env 4)).1 with
        | Except.error e => (Except.error e, [6, 4])
        | Except.ok a4 =>
          if pyTruthy a4 then (Except.ok (a4.getD []), [6, 4])
          else (Except.ok cfg.failureMessage, [6, 4])
  else
    match (get_public_ip cfg.ipVersion (env cfg.ipVersion)).1 with
    | Except.error e => (Except.error e, [cfg.ipVersion])
    | Except.ok a =>
      if pyTruthy a then (Except.ok (a.getD []), [cfg.ipVersion])
      else (Except.ok cfg.failureMessage, [cfg.ipVersion])

/-- What the program writes to standard output: line 92's
`print('...'.format(address))` emits the address followed by a newline;
if `main` raises, nothing is written to stdout (the traceback goes to
stderr). -/
def mainStdout (cfg : Config) (env : Nat → ConnEnv) : List Char :=
  match (mainRun cfg env).1 with
  | Except.ok a => a ++ ['\n']
  | Except.error _ => []

/-- Line 95: `sys.exit(main(sys.argv[1:]))`. `main` returns `None`, so a
normal return exits with status 0; an uncaught exception makes the
interpreter exit with status 1. -/
def processExitCode (cfg : Config) (env : Nat → ConnEnv) : Nat :=
  match (mainRun cfg env).1 with
  | Except.ok _ => 0
  | Except.error _ => 1

/-- Modelled from the spec: "return the last non-empty line" of the split
response — the last element of the line list after discarding empty
lines. Stated only to compare against what the code computes. -/
def specLastNonEmptyLine (lines : List (List Char)) : Option (List Char) :=
  (lines.filter (fun l => !l.isEmpty)).getLast?

/-- A reachable service answering a well-formed response whose last body
line is `203.0.113.7` followed by a single newline. -/
def envOkIp : ConnEnv :=
  ⟨true, true, true, strBytes "HTTP/1.1 200 OK\r\n\r\n203.0.113.7\n"⟩

/-- A reachable service whose response ends with a blank line after the
address line. -/
def envTrailingBlank : ConnEnv :=
  ⟨true, true, true, strBytes "203.0.113.7\n\n"⟩

/-- A reachable service that closes the connection without sending any
data: `recv` returns `b''`. -/
def envEmptyResponse : ConnEnv :=
  ⟨true, true, true, []⟩

/-- A connection on which `recv` raises `OSError` (e.g. connection reset
during receive). -/
def envRecvError : ConnEnv :=
  ⟨true, true, false, []⟩

/-- A connection attempt on which `connect` raises `OSError` (DNS failure,
refusal, timeout, no route). -/
def envConnFail : ConnEnv :=
  ⟨false, true, true, []⟩

/-- Per-version environment: IPv6 resolves to `2001:db8::1`, IPv4 is
unreachable. -/
def envV6Ok : Nat → ConnEnv := fun v =>
  if v = 6 then ⟨true, true, true, strBytes "2001:db8::1\n"⟩ else envConnFail

/-- Per-version environment: both versions unreachable at connect time. -/
def envBothFail : Nat → ConnEnv := fun _ => envConnFail

/-- Per-version environment: every attempt yields an empty response, so
`get_public_ip` raises `IndexError`. -/
def envRaise : Nat → ConnEnv := fun _ => envEmptyResponse

/-- Per-version environment: IPv6 resolves to the empty string (response
ends in a blank line), IPv4 is unreachable. -/
def envEmptyThenFail : Nat → ConnEnv := fun v =>
  if v = 6 then ⟨true, true, true, strBytes "x\n\n"⟩ else envConnFail

/-- Per-version environment: IPv6 unreachable, IPv4 resolves to
`203.0.113.7`. -/
def envV4Fallback : Nat → ConnEnv := fun v =>
  if v = 4 then ⟨true, true, true, strBytes "203.0.113.7\n"⟩ else envConnFail

/-- Helper: the empty string is falsy. -/
theorem pyTruthy_some_nil : pyTruthy (some []) = false := rfl

/-- Helper: whatever the network does, the trace of a `get_public_ip` call
starts with the creation of a socket of the family chosen from `version`. -/
theorem trace_head (v : Nat) (env : ConnEnv) :
    (get_public_ip v env).2.head? =
      some (NetEvent.socketCreate (socketFamily v)) := by
  simp [get_public_ip, withOpenTcpConnection]

/-- Claim C1, amended: on a successful connection whose response decodes as
UTF-8 and splits into at least one line, `get_public_ip` returns the LAST
line produced by `splitlines` — which equals the last non-empty line
whenever the response does not end in a blank line; in particular, a
response whose last body line is `203.0.113.7` followed by a single newline
yields exactly that string. -/
theorem C1_last_line (v : Nat) (env : ConnEnv) (text line : List Char)
    (hc : env.connectOk = true) (hs : env.sendOk = true)
    (hr : env.recvOk = true)
    (hd : utf8Decode (env.responseBytes.take 2048) = some text)
    (hl : (pySplitlines text).getLast? = some line) :
    (get_public_ip v env).1 = Except.ok (some line) := by
  simp [get_public_ip, withOpenTcpConnection, processResponse, hc, hs, hr,
    hd, hl]

/-- Witness for C1: a reachable service answering
`HTTP/1.1 200 OK\r\n\r\n203.0.113.7\n` makes `get_public_ip` return
`203.0.113.7`. -/
theorem C1_last_line_witness :
    (get_public_ip 6 envOkIp).1 = Except.ok (some ("203.0.113.7".data)) :=
  C1_last_line 6 envOkIp ("HTTP/1.1 200 OK\r\n\r\n203.0.113.7\n".data)
    ("203.0.113.7".data) (by decide) (by decide) (by decide) (by decide)
    (by decide)

/-- Claim C1 is false as stated: for the response `203.0.113.7\n\n`, whose
last non-empty line is `203.0.113.7`, the code (`splitlines()[-1]`) returns
the empty string — the last line, not the last non-empty line. -/
theorem C1_counterexample :
    (get_public_ip 6 envTrailingBlank).1 = Except.ok (some []) ∧
    utf8Decode (envTrailingBlank.responseBytes.take 2048) =
      some ("203.0.113.7\n\n".data) ∧
    specLastNonEmptyLine (pySplitlines ("203.0.113.7\n\n".data)) =
      some ("203.0.113.7".data) ∧
    (some ([] : List Char) ≠ some ("203.0.113.7".data)) := by decide

/-- Claim C2, amended: failures in ESTABLISHING the connection (DNS
resolution failure, refusal, timeout — any `OSError` raised by `connect`)
make `get_public_ip` return `None` for every protocol version, with no
exception propagated. (Failures after the connection is established —
`OSError` during send/receive, empty or undecodable responses — are NOT
caught and propagate, see `C2_counterexample`.) -/
theorem C2_connect_failure_none (v : Nat) (env : ConnEnv)
    (h : env.connectOk = false) :
    (get_public_ip v env).1 = Except.ok none := by
  simp [get_public_ip, withOpenTcpConnection, h]

/-- Witness for C2: an unreachable service makes `get_public_ip` return
`None`. -/
theorem C2_connect_failure_none_witness :
    (get_public_ip 6 envConnFail).1 = Except.ok none :=
  C2_connect_failure_none 6 envConnFail (by decide)

/-- Claim C2 is false as stated: when the connection succeeds but the peer
sends no data (a partial response: `recv` returns `b''`), `splitlines()`
is empty and `[-1]` raises `IndexError`, which propagates to the caller
instead of the claimed `None`. -/
theorem C2_counterexample :
    (get_public_ip 6 envEmptyResponse).1 = Except.error PyExc.indexError ∧
    (Except.error PyExc.indexError ≠
      (Except.ok none : Except PyExc (Option (List Char)))) := by decide

/-- Claim C3 fails on the code: when `recv` raises `OSError` on an open
connection, the exception is thrown into the `open_tcp_connection`
generator at its `yield`, which is not wrapped in `try/finally`, so the
`if sock: sock.close()` after the `yield` never runs: the call propagates
the exception with no `close` in the socket trace. -/
theorem C3_socket_leak_on_recv_error :
    (get_public_ip 6 envRecvError).1 = Except.error PyExc.osError ∧
    (get_public_ip 6 envRecvError).2 =
      [NetEvent.socketCreate Family.afInet6,
        NetEvent.connect "icanhazip.com" 80,
        NetEvent.send GET_REQUEST, NetEvent.recv 2048] ∧
    NetEvent.close ∉ (get_public_ip 6 envRecvError).2 := by decide

/-- Claim C4: in auto mode (ip_version 0), version 6 is attempted first;
if it resolves to a truthy address that address is the answer and version 4
is never attempted (attempt list `[6]`); if version 6 fails, version 4 is
attempted and its truthy result is the answer; if both fail the result is
the failure message. (Stated for runs in which the attempted calls return
rather than raise.) -/
theorem C4_auto (env : Nat → ConnEnv) (fm : List Char)
    (h6 : raised (get_public_ip 6 (env 6)).1 = false)
    (h4 : resolveTruthy (get_public_ip 6 (env 6)).1 = false →
      raised (get_public_ip 4 (env 4)).1 = false) :
    mainRun ⟨0, fm⟩ env =
      (if resolveTruthy (get_public_ip 6 (env 6)).1 then
        (Except.ok (resolveValue (get_public_ip 6 (env 6)).1), [6])
      else if resolveTruthy (get_public_ip 4 (env 4)).1 then
        (Except.ok (resolveValue (get_public_ip 4 (env 4)).1), [6, 4])
      else (Except.ok fm, [6, 4])) := by
  cases hm6 : (get_public_ip 6 (env 6)).1 with
  | error e => rw [hm6] at h6; simp [raised] at h6
  | ok a6 =>
    rw [hm6] at h4
    by_cases ha6 : pyTruthy a6 = true
    · simp [mainRun, hm6, ha6, resolveTruthy, resolveValue]
    · simp only [Bool.not_eq_true] at ha6
      have h4' := h4 (by simp [resolveTruthy, ha6])
      cases hm4 : (get_public_ip 4 (env 4)).1 with
      | error e => rw [hm4] at h4'; simp [raised] at h4'
      | ok a4 =>
        by_cases ha4 : pyTruthy a4 = true
        · simp [mainRun, hm6, ha6, hm4, ha4, resolveTruthy, resolveValue]
        · simp only [Bool.not_eq_true] at ha4
          simp [mainRun, hm6, ha6, hm4, ha4, resolveTruthy, resolveValue]

/-- Witness for C4: IPv6 resolving to `2001:db8::1` short-circuits — the
answer is that address and only version 6 is attempted. -/
theorem C4_auto_witness :
    mainRun ⟨0, defaultFailureMessage⟩ envV6Ok =
      (Except.ok ("2001:db8::1".data), [6]) := by
  have h := C4_auto envV6Ok defaultFailureMessage (by decide) (by decide)
  rw [h]
  decide

/-- Claim C5: when both attempts of auto mode fail (or the attempted
version of a specific mode fails), the printed result is the configured
failure message — `service unreachable` when `--failure_message` is unset,
the supplied string otherwise. -/
theorem C5_failure_message (env : Nat → ConnEnv) (fm : List Char)
    (h6 : resolveFalsy (get_public_ip 6 (env 6)).1 = true)
    (h4 : resolveFalsy (get_public_ip 4 (env 4)).1 = true) :
    (mainRun ⟨0, fm⟩ env).1 = Except.ok fm ∧
    mainStdout ⟨0, defaultFailureMessage⟩ env =
      "service unreachable\n".data ∧
    (∀ v, v = 4 ∨ v = 6 → (mainRun ⟨v, fm⟩ env).1 = Except.ok fm) := by
  cases hm6 : (get_public_ip 6 (env 6)).1 with
  | error e => rw [hm6] at h6; simp [resolveFalsy] at h6
  | ok a6 =>
    rw [hm6] at h6
    simp only [resolveFalsy, Bool.not_eq_true'] at h6
    cases hm4 : (get_public_ip 4 (env 4)).1 with
    | error e => rw [hm4] at h4; simp [resolveFalsy] at h4
    | ok a4 =>
      rw [hm4] at h4
      simp only [resolveFalsy, Bool.not_eq_true'] at h4
      refine ⟨?_, ?_, ?_⟩
      · simp [mainRun, hm6, h6, hm4, h4]
      · simp [mainStdout, mainRun, hm6, h6, hm4, h4]
        decide
      · intro v hv
        rcases hv with rfl | rfl
        · simp [mainRun, hm4, h4]
        · simp [mainRun, hm6, h6]

/-- Witness for C5: both versions unreachable with
`--failure_message offline` prints `offline`. -/
theorem C5_failure_message_witness :
    (mainRun ⟨0, "offline".data⟩ envBothFail).1 =
      Except.ok ("offline".data) :=
  (C5_failure_message envBothFail ("offline".data) (by decide) (by decide)).1

/-- Claim C6, amended: the exit code is 0 for every run in which `main`
returns — any configuration and any resolution outcome that does not raise.
(A resolution outcome that raises makes the interpreter exit with status 1,
see `C6_counterexample`; an unparseable argument list makes `argparse`
exit with status 2.) -/
theorem C6_exit_zero (cfg : Config) (env : Nat → ConnEnv)
    (h : raised (mainRun cfg env).1 = false) :
    processExitCode cfg env = 0 := by
  cases hm : (mainRun cfg env).1 with
  | error e => rw [hm] at h; simp [raised] at h
  | ok a => simp [processExitCode, hm]

/-- Witness for C6: a run in which both versions are unreachable exits
with status 0. -/
theorem C6_exit_zero_witness :
    processExitCode ⟨0, defaultFailureMessage⟩ envBothFail = 0 :=
  C6_exit_zero ⟨0, defaultFailureMessage⟩ envBothFail (by decide)

/-- Claim C6 is false as stated: a resolution outcome in which the peer
sends no data makes `get_public_ip` raise `IndexError`; the uncaught
exception gives exit status 1, not 0. -/
theorem C6_counterexample :
    processExitCode ⟨0, defaultFailureMessage⟩ envRaise ≠ 0 := by decide

/-- Claim C7, amended: for every run in which `main` returns, the program
writes exactly one thing to standard output — the computed string followed
by a newline — and that string is either the failure message or an address
resolved by one of the `get_public_ip` calls. (A run that raises writes
nothing to stdout, see `C7_counterexample`.) -/
theorem C7_one_line (cfg : Config) (env : Nat → ConnEnv) (out : List Char)
    (h : (mainRun cfg env).1 = Except.ok out) :
    mainStdout cfg env = out ++ ['\n'] ∧
    (out = cfg.failureMessage ∨
      ∃ v, (get_public_ip v (env v)).1 = Except.ok (some out)) := by
  refine ⟨by simp [mainStdout, h], ?_⟩
  by_cases hv : cfg.ipVersion = 0
  · cases hm6 : (get_public_ip 6 (env 6)).1 with
    | error e => simp [mainRun, hv, hm6] at h
    | ok a6 =>
      by_cases ha6 : pyTruthy a6 = true
      · simp [mainRun, hv, hm6, ha6] at h
        right
        refine ⟨6, ?_⟩
        cases a6 with
        | none => simp [pyTruthy] at ha6
        | some s =>
          simp at h
          rw [hm6, h]
      · simp only [Bool.not_eq_true] at ha6
        cases hm4 : (get_public_ip 4 (env 4)).1 with
        | error e => simp [mainRun, hv, hm6, ha6, hm4] at h
        | ok a4 =>
          by_cases ha4 : pyTruthy a4 = true
          · simp [mainRun, hv, hm6, ha6, hm4, ha4] at h
            right
            refine ⟨4, ?_⟩
            cases a4 with
            | none => simp [pyTruthy] at ha4
            | some s =>
              simp at h
              rw [hm4, h]
          · simp only [Bool.not_eq_true] at ha4
            simp [mainRun, hv, hm6, ha6, hm4, ha4] at h
            left
            exact h.symm
  · cases hm : (get_public_ip cfg.ipVersion (env cfg.ipVersion)).1 with
    | error e => simp [mainRun, hv, hm] at h
    | ok a =>
      by_cases ha : pyTruthy a = true
      · simp [mainRun, hv, hm, ha] at h
        right
        refine ⟨cfg.ipVersion, ?_⟩
        cases a with
        | none => simp [pyTruthy] at ha
        | some s =>
          simp at h
          rw [hm, h]
      · simp only [Bool.not_eq_true] at ha
        simp [mainRun, hv, hm, ha] at h
        left
        exact h.symm

/-- Witness for C7: IPv6 down, IPv4 resolving to `203.0.113.7` — stdout is
exactly that address followed by a newline. -/
theorem C7_one_line_witness :
    mainStdout ⟨0, "offline".data⟩ envV4Fallback =
      "203.0.113.7\n".data := by
  have h := C7_one_line ⟨0, "offline".data⟩ envV4Fallback
    ("203.0.113.7".data) (by decide)
  rw [h.1]
  decide

/-- Claim C7 is false as stated: when resolution raises (peer sends no
data), nothing at all is written to standard output. -/
theorem C7_counterexample :
    mainStdout ⟨0, defaultFailureMessage⟩ envRaise = [] ∧
    (mainRun ⟨0, defaultFailureMessage⟩ envRaise).1 =
      Except.error PyExc.indexError := by decide

/-- Claim C8: on every successful connection the socket trace is exactly:
create a socket of the chosen family, connect to `icanhazip.com:80`, one
`send` of exactly the bytes
`GET / HTTP/1.1\r\nHost: icanhazip.com\r\n\r\n`, one `recv` with buffer
size 2048 (so at most 2048 bytes are read, with no retry), and a close. -/
theorem C8_request (v : Nat) (env : ConnEnv)
    (hc : env.connectOk = true) (hs : env.sendOk = true)
    (hr : env.recvOk = true) :
    (get_public_ip v env).2 =
      [NetEvent.socketCreate (socketFamily v),
        NetEvent.connect "icanhazip.com" 80,
        NetEvent.send GET_REQUEST, NetEvent.recv 2048, NetEvent.close] ∧
    GET_REQUEST = strBytes "GET / HTTP/1.1\r\nHost: icanhazip.com\r\n\r\n" := by
  refine ⟨?_, rfl⟩
  simp [get_public_ip, withOpenTcpConnection, hc, hs, hr]

/-- Witness for C8: the trace of a successful IPv6 resolution. -/
theorem C8_request_witness :
    (get_public_ip 6 envOkIp).2 =
      [NetEvent.socketCreate Family.afInet6,
        NetEvent.connect "icanhazip.com" 80,
        NetEvent.send GET_REQUEST, NetEvent.recv 2048, NetEvent.close] := by
  have h := (C8_request 6 envOkIp (by decide) (by decide) (by decide)).1
  rw [h]
  decide

/-- Claim C9: an empty string returned by `get_public_ip` is treated
exactly like a failure: in auto mode both versions are attempted and, if
version 4 also returns a falsy value, the failure message is the result;
in a specific-version mode the failure message is printed instead of the
empty address. -/
theorem C9_empty_falsy (env : Nat → ConnEnv) (fm : List Char)
    (h6 : (get_public_ip 6 (env 6)).1 = Except.ok (some [])) :
    (mainRun ⟨0, fm⟩ env).2 = [6, 4] ∧
    (resolveFalsy (get_public_ip 4 (env 4)).1 = true →
      (mainRun ⟨0, fm⟩ env).1 = Except.ok fm) ∧
    (∀ v, v ≠ 0 → (get_public_ip v (env v)).1 = Except.ok (some []) →
      (mainRun ⟨v, fm⟩ env).1 = Except.ok fm) := by
  refine ⟨?_, ?_, ?_⟩
  · cases hm4 : (get_public_ip 4 (env 4)).1 with
    | error e => simp [mainRun, h6, hm4, pyTruthy_some_nil]
    | ok a4 =>
      by_cases ha4 : pyTruthy a4 = true
      · simp [mainRun, h6, hm4, ha4, pyTruthy_some_nil]
      · simp only [Bool.not_eq_true] at ha4
        simp [mainRun, h6, hm4, ha4, pyTruthy_some_nil]
  · intro hf
    cases hm4 : (get_public_ip 4 (env 4)).1 with
    | error e => rw [hm4] at hf; simp [resolveFalsy] at hf
    | ok a4 =>
      rw [hm4] at hf
      simp only [resolveFalsy, Bool.not_eq_true'] at hf
      simp [mainRun, h6, hm4, hf, pyTruthy_some_nil]
  · intro v hv hempty
    simp [mainRun, hv, hempty, pyTruthy_some_nil]

/-- Witness for C9: IPv6 resolving to the empty string with IPv4
unreachable falls through to the failure message in auto mode. -/
theorem C9_empty_falsy_witness :
    (mainRun ⟨0, defaultFailureMessage⟩ envEmptyThenFail).1 =
      Except.ok defaultFailureMessage := by
  have h := C9_empty_falsy envEmptyThenFail defaultFailureMessage (by decide)
  exact h.2.1 (by decide)

/-- Claim C10: every version argument other than 4 — including the default
6 and any other integer — selects the IPv6 address family; only version 4
selects IPv4. The first event of every connection attempt is the creation
of a socket of that family. -/
theorem C10_family (v : Nat) (env : ConnEnv) (h : v ≠ 4) :
    socketFamily v = Family.afInet6 ∧ socketFamily 4 = Family.afInet ∧
    (get_public_ip v env).2.head? =
      some (NetEvent.socketCreate Family.afInet6) := by
  have hf : socketFamily v = Family.afInet6 := by simp [socketFamily, h]
  exact ⟨hf, rfl, by rw [trace_head, hf]⟩

/-- Witness for C10: version 6 creates an `AF_INET6` socket. -/
theorem C10_family_witness :
    socketFamily 6 = Family.afInet6 ∧
    (get_public_ip 6 envConnFail).2.head? =
      some (NetEvent.socketCreate Family.afInet6) := by
  have h := C10_family 6 envConnFail (by decide)
  exact ⟨h.1, h.2.2⟩
